import Mathlib

/-!
Shallow embedding of the RISC-V EDK2 SBI ecall library
(Silicon/RISC-V/ProcessorPkg/Library/RiscVEdk2SbiLib/RiscVEdk2SbiLib.c and
its headers RiscVEdk2SbiLib.h, RiscVOpensbi.h).

Modelling conventions:
* Machine words (UINTN / uintptr_t register values) are `Nat`; the claims at
  hand do not depend on 2^64 wrap-around of the argument registers.
* The `sbiret` structure returned by the trap has two `long` fields; they are
  modelled as `Int` so that the negative SBI status codes keep their values.
  `TranslateError` takes the status as `Int`: the C prototype declares the
  parameter `UINTN`, but both the `long` argument and the negative `case`
  labels are converted to `UINTN` by the same value-preserving wrap mod 2^64,
  so matching on the signed values is the same function.
* The wrapped runtime behind the `ecall` instruction is external to the
  library; it is modelled as a parameter `rt : SbiRuntime` mapping the issued
  register file (a0-a7) to the `sbiret` read back from a0/a1.
* An EDK2 `ASSERT` is a fatal programming-error check; a tripped assert is
  modelled as an explicit observable outcome (`assertFailed` flag or the
  `assertFailure` constructor) after which no further effect happens.
* A wrapper's `OUT` parameter is modelled by passing the parameter's previous
  contents in and returning its final contents, so "left untouched" is the
  statement that the previous contents come back out.
-/

/-- EFI status values used by this library.  The claims only compare these
symbolically, so they are modelled as an enumeration rather than by their
numeric UEFI encodings. -/
inductive EFI_STATUS : Type where
  | EFI_SUCCESS : EFI_STATUS
  | EFI_DEVICE_ERROR : EFI_STATUS
  | EFI_UNSUPPORTED : EFI_STATUS
  | EFI_INVALID_PARAMETER : EFI_STATUS
  | EFI_ACCESS_DENIED : EFI_STATUS
  | EFI_LOAD_ERROR : EFI_STATUS
  | EFI_ALREADY_STARTED : EFI_STATUS
  deriving DecidableEq, Repr

/-- SBI status code SBI_SUCCESS (RiscVOpensbi.h line 17). -/
def SBI_SUCCESS : Int := 0

/-- SBI status code SBI_ERR_FAILED (RiscVOpensbi.h line 18). -/
def SBI_ERR_FAILED : Int := -1

/-- SBI status code SBI_ERR_NOT_SUPPORTED (RiscVOpensbi.h line 19). -/
def SBI_ERR_NOT_SUPPORTED : Int := -2

/-- SBI status code SBI_ERR_INVALID_PARAM (RiscVOpensbi.h line 20). -/
def SBI_ERR_INVALID_PARAM : Int := -3

/-- SBI status code SBI_ERR_DENIED (RiscVOpensbi.h line 21). -/
def SBI_ERR_DENIED : Int := -4

/-- SBI status code SBI_ERR_INVALID_ADDRESS (RiscVOpensbi.h line 22). -/
def SBI_ERR_INVALID_ADDRESS : Int := -5

/-- SBI status code SBI_ERR_ALREADY_AVAILABLE (RiscVOpensbi.h line 23). -/
def SBI_ERR_ALREADY_AVAILABLE : Int := -6

/-- Result of TranslateError: the EFI status the C function returns, plus a
flag recording whether the `ASSERT (FALSE)` in the default branch tripped
(in a DEBUG build that assert is fatal, so a tripped flag means the fatal
path was taken, not a silently returned status). -/
structure TransResult : Type where
  assertFailed : Bool
  status : EFI_STATUS
  deriving DecidableEq, Repr

/-- Translation of RiscVEdk2SbiLib.c, TranslateError (lines 40-74): a switch
over the seven defined SBI status codes; the default branch executes
`ASSERT (FALSE)` and falls through to `return EFI_UNSUPPORTED`. -/
def TranslateError (SbiError : Int) : TransResult :=
  if SbiError = SBI_SUCCESS then ⟨false, .EFI_SUCCESS⟩
  else if SbiError = SBI_ERR_FAILED then ⟨false, .EFI_DEVICE_ERROR⟩
  else if SbiError = SBI_ERR_NOT_SUPPORTED then ⟨false, .EFI_UNSUPPORTED⟩
  else if SbiError = SBI_ERR_INVALID_PARAM then ⟨false, .EFI_INVALID_PARAMETER⟩
  else if SbiError = SBI_ERR_DENIED then ⟨false, .EFI_ACCESS_DENIED⟩
  else if SbiError = SBI_ERR_INVALID_ADDRESS then ⟨false, .EFI_LOAD_ERROR⟩
  else if SbiError = SBI_ERR_ALREADY_AVAILABLE then ⟨false, .EFI_ALREADY_STARTED⟩
  else ⟨true, .EFI_UNSUPPORTED⟩

/-- The register file handed to the `ecall` instruction by SbiCall
(RiscVEdk2SbiLib.h lines 88-104): six argument registers a0-a5, the function
id in a6 and the extension id in a7. -/
structure CallDescriptor : Type where
  a0 : Nat
  a1 : Nat
  a2 : Nat
  a3 : Nat
  a4 : Nat
  a5 : Nat
  a6 : Nat
  a7 : Nat
  deriving DecidableEq, Repr

/-- The `struct sbiret` of RiscVEdk2SbiLib.h lines 30-33: the two `long`
values read back from registers a0/a1 after the trap. -/
structure Sbiret : Type where
  error : Int
  value : Int
  deriving DecidableEq, Repr

/-- The wrapped runtime on the other side of the trap: a map from the issued
register file to the (error, value) pair it leaves in a0/a1.  The runtime is
an external collaborator, so it is a parameter of every wrapper. -/
abbrev SbiRuntime : Type := CallDescriptor → Sbiret

/-- Translation of SbiCall (RiscVEdk2SbiLib.h lines 88-104): load a0-a5 with
the six arguments, a6 with the function id, a7 with the extension id, issue
`ecall`, and read back `sbiret { a0, a1 }`.  The second component records the
register file the trap was issued with, which is the library's sole
observable action on the runtime. -/
def SbiCall (rt : SbiRuntime)
    (ext_id func_id arg0 arg1 arg2 arg3 arg4 arg5 : Nat) :
    Sbiret × CallDescriptor :=
  let d : CallDescriptor :=
    { a0 := arg0, a1 := arg1, a2 := arg2, a3 := arg3, a4 := arg4, a5 := arg5,
      a6 := func_id, a7 := ext_id }
  (rt d, d)

/-- Translation of the SbiCall0 macro (RiscVEdk2SbiLib.h line 35). -/
def SbiCall0 (rt : SbiRuntime) (ext_id func_id : Nat) : Sbiret × CallDescriptor :=
  SbiCall rt ext_id func_id 0 0 0 0 0 0

/-- Translation of the SbiCall1 macro (RiscVEdk2SbiLib.h line 37). -/
def SbiCall1 (rt : SbiRuntime) (ext_id func_id arg0 : Nat) : Sbiret × CallDescriptor :=
  SbiCall rt ext_id func_id arg0 0 0 0 0 0

/-- Translation of the SbiCall2 macro (RiscVEdk2SbiLib.h line 39). -/
def SbiCall2 (rt : SbiRuntime) (ext_id func_id arg0 arg1 : Nat) : Sbiret × CallDescriptor :=
  SbiCall rt ext_id func_id arg0 arg1 0 0 0 0

/-- Translation of the SbiCall3 macro (RiscVEdk2SbiLib.h line 41). -/
def SbiCall3 (rt : SbiRuntime) (ext_id func_id arg0 arg1 arg2 : Nat) : Sbiret × CallDescriptor :=
  SbiCall rt ext_id func_id arg0 arg1 arg2 0 0 0

/-- Translation of the SbiCall4 macro (RiscVEdk2SbiLib.h line 43). -/
def SbiCall4 (rt : SbiRuntime) (ext_id func_id arg0 arg1 arg2 arg3 : Nat) : Sbiret × CallDescriptor :=
  SbiCall rt ext_id func_id arg0 arg1 arg2 arg3 0 0

/-- Translation of the SbiCall5 macro (RiscVEdk2SbiLib.h line 45). -/
def SbiCall5 (rt : SbiRuntime) (ext_id func_id arg0 arg1 arg2 arg3 arg4 : Nat) : Sbiret × CallDescriptor :=
  SbiCall rt ext_id func_id arg0 arg1 arg2 arg3 arg4 0

/-- Translation of the SbiCall6 macro (RiscVEdk2SbiLib.h line 47). -/
def SbiCall6 (rt : SbiRuntime) (ext_id func_id arg0 arg1 arg2 arg3 arg4 arg5 : Nat) : Sbiret × CallDescriptor :=
  SbiCall rt ext_id func_id arg0 arg1 arg2 arg3 arg4 arg5

/-- Base extension id SBI_EXT_BASE = 0x10.  The .c file takes this name from
OpenSBI's sbi_ecall_interface.h; the in-repo header RiscVOpensbi.h defines
the same value as SBI_BASE_EXT (line 25). -/
def SBI_EXT_BASE : Nat := 0x10

/-- Base-extension function id GET_SPEC_VERSION = 0 (RiscVOpensbi.h line 37). -/
def SBI_EXT_BASE_GET_SPEC_VERSION : Nat := 0

/-- Base-extension function id GET_IMP_ID = 1 (RiscVOpensbi.h line 38). -/
def SBI_EXT_BASE_GET_IMP_ID : Nat := 1

/-- Base-extension function id GET_IMP_VERSION = 2 (RiscVOpensbi.h line 39). -/
def SBI_EXT_BASE_GET_IMP_VERSION : Nat := 2

/-- Base-extension function id PROBE_EXT = 3 (RiscVOpensbi.h line 40). -/
def SBI_EXT_BASE_PROBE_EXT : Nat := 3

/-- Base-extension function id GET_MVENDORID = 4 (RiscVOpensbi.h line 41). -/
def SBI_EXT_BASE_GET_MVENDORID : Nat := 4

/-- Base-extension function id GET_MARCHID = 5 (RiscVOpensbi.h line 42). -/
def SBI_EXT_BASE_GET_MARCHID : Nat := 5

/-- Base-extension function id GET_MIMPID = 6 (RiscVOpensbi.h line 43). -/
def SBI_EXT_BASE_GET_MIMPID : Nat := 6

/-- Hart-state-management extension id 0x48534D (RiscVOpensbi.h line 26). -/
def SBI_EXT_HSM : Nat := 0x48534D

/-- HSM function id HART_START = 0 (RiscVOpensbi.h line 45). -/
def SBI_EXT_HSM_HART_START : Nat := 0

/-- HSM function id HART_STOP = 1 (RiscVOpensbi.h line 46). -/
def SBI_EXT_HSM_HART_STOP : Nat := 1

/-- HSM function id HART_GET_STATUS = 2 (RiscVOpensbi.h line 47). -/
def SBI_EXT_HSM_HART_GET_STATUS : Nat := 2

/-- Timer extension id 0x54494D45 (RiscVOpensbi.h line 27). -/
def SBI_EXT_TIME : Nat := 0x54494D45

/-- Modelled from the spec: the timer extension's single function, set-timer,
is function id 0 (spec section 6: function identifiers per extension are
small sequential integers 0,1,2,...).  The OpenSBI header
sbi_ecall_interface.h that the .c file takes the name
SBI_EXT_TIME_SET_TIMER from is not among the repository sources. -/
def SBI_EXT_TIME_SET_TIMER : Nat := 0

/-- IPI extension id 0x735049 (RiscVOpensbi.h line 28). -/
def SBI_EXT_IPI : Nat := 0x735049

/-- Modelled from the spec: the IPI extension's single function, send-ipi, is
function id 0 (spec section 6); the OpenSBI header defining
SBI_EXT_IPI_SEND_IPI is not among the repository sources. -/
def SBI_EXT_IPI_SEND_IPI : Nat := 0

/-- Remote-fence extension id 0x52464E43.  The in-repo header RiscVOpensbi.h
defines the same value as SBI_RFNC_EXT (line 29). -/
def SBI_EXT_RFENCE : Nat := 0x52464E43

/-- Modelled from the spec: remote-fence function ids are the small
sequential integers 0,1,2,... in the order the spec enumerates the family
(section 4.3: instruction-cache fence, address-space fence without/with ASID,
guest-physical fence with/without VMID, the two virtual-fence variants); the
OpenSBI header sbi_ecall_interface.h defining these names is not among the
repository sources.  Instruction-cache fence: function id 0. -/
def SBI_EXT_RFENCE_REMOTE_FENCE_I : Nat := 0

/-- Modelled from the spec: address-space fence without ASID, function id 1
(see SBI_EXT_RFENCE_REMOTE_FENCE_I for the enumeration). -/
def SBI_EXT_RFENCE_REMOTE_SFENCE_VMA : Nat := 1

/-- Modelled from the spec: address-space fence with ASID, function id 2
(see SBI_EXT_RFENCE_REMOTE_FENCE_I for the enumeration). -/
def SBI_EXT_RFENCE_REMOTE_SFENCE_VMA_ASID : Nat := 2

/-- Modelled from the spec: guest-physical fence with VMID, function id 3
(see SBI_EXT_RFENCE_REMOTE_FENCE_I for the enumeration). -/
def SBI_EXT_RFENCE_REMOTE_HFENCE_GVMA_VMID : Nat := 3

/-- Modelled from the spec: guest-physical fence without VMID, function id 4
(see SBI_EXT_RFENCE_REMOTE_FENCE_I for the enumeration). -/
def SBI_EXT_RFENCE_REMOTE_HFENCE_GVMA : Nat := 4

/-- Modelled from the spec: virtual fence with ASID, function id 5
(see SBI_EXT_RFENCE_REMOTE_FENCE_I for the enumeration). -/
def SBI_EXT_RFENCE_REMOTE_HFENCE_VVMA_ASID : Nat := 5

/-- Modelled from the spec: virtual fence without ASID, function id 6
(see SBI_EXT_RFENCE_REMOTE_FENCE_I for the enumeration). -/
def SBI_EXT_RFENCE_REMOTE_HFENCE_VVMA : Nat := 6

/-- Firmware extension code base SBI_EXT_FIRMWARE_CODE_BASE_START =
0x0A000000 (RiscVOpensbi.h line 34). -/
def SBI_EXT_FIRMWARE_CODE_BASE_START : Nat := 0x0A000000

/-- Modelled from the spec: the wrapped runtime's implementation id, combined
with the firmware code base to form the firmware-private extension id (spec
section 6: a reserved base 0x0A000000-0x0AFFFFFF combined with the runtime
implementation id).  OpenSBI's implementation id, defined in OpenSBI headers
not among the repository sources, is 1. -/
def SBI_OPENSBI_IMPID : Nat := 1

/-- EDK2 firmware extension id (RiscVEdk2SbiLib.h line 20):
SBI_EXT_FIRMWARE_CODE_BASE_START bitwise-or SBI_OPENSBI_IMPID. -/
def SBI_EDK2_FW_EXT : Nat := SBI_EXT_FIRMWARE_CODE_BASE_START ||| SBI_OPENSBI_IMPID

/-- Firmware-extension function id MSCRATCH = 0 (RiscVEdk2SbiLib.h line 24). -/
def SBI_EXT_FW_MSCRATCH_FUNC : Nat := 0

/-- Firmware-extension function id MSCRATCH_HARTID = 1
(RiscVEdk2SbiLib.h line 25). -/
def SBI_EXT_FW_MSCRATCH_HARTID_FUNC : Nat := 1

/-- Translation of SbiGetSpecVersion (RiscVEdk2SbiLib.c lines 89-102): issue
the base-extension get-spec-version call and write the out parameter only
when `ret.error` is zero.  The C function is VOID (the `return
TranslateError(ret.error)` line is commented out in the source), so the only
result is the out parameter's final contents. -/
def SbiGetSpecVersion (rt : SbiRuntime) (SpecVersion : Int) : Int :=
  let r := SbiCall0 rt SBI_EXT_BASE SBI_EXT_BASE_GET_SPEC_VERSION
  if r.1.error = 0 then r.1.value else SpecVersion

/-- Translation of SbiGetImplId (RiscVEdk2SbiLib.c lines 112-120): the out
parameter is assigned `ret.value` unconditionally, with no error check; the
function is VOID. -/
def SbiGetImplId (rt : SbiRuntime) (ImplId : Int) : Int :=
  let r := SbiCall0 rt SBI_EXT_BASE SBI_EXT_BASE_GET_IMP_ID
  r.1.value

/-- Translation of SbiGetImplVersion (RiscVEdk2SbiLib.c lines 130-138):
unconditional assignment of `ret.value`, VOID. -/
def SbiGetImplVersion (rt : SbiRuntime) (ImplVersion : Int) : Int :=
  let r := SbiCall0 rt SBI_EXT_BASE SBI_EXT_BASE_GET_IMP_VERSION
  r.1.value

/-- Translation of SbiProbeExtension (RiscVEdk2SbiLib.c lines 149-158): the
body is `SbiCall0 (SBI_EXT_BASE, SBI_EXT_BASE_PROBE_EXT)` followed by the
unconditional assignment `*ProbeResult = ret.value`.  Note that the
ExtensionId parameter is never marshalled into the call.  The first
component is the out parameter's final contents, the second the register
file the trap was issued with. -/
def SbiProbeExtension (rt : SbiRuntime) (ExtensionId : Int) (ProbeResult : Int) :
    Int × CallDescriptor :=
  let r := SbiCall0 rt SBI_EXT_BASE SBI_EXT_BASE_PROBE_EXT
  (r.1.value, r.2)

/-- Translation of SbiGetMvendorId (RiscVEdk2SbiLib.c lines 167-175):
unconditional assignment of `ret.value`, VOID. -/
def SbiGetMvendorId (rt : SbiRuntime) (MvendorId : Int) : Int :=
  let r := SbiCall0 rt SBI_EXT_BASE SBI_EXT_BASE_GET_MVENDORID
  r.1.value

/-- Translation of SbiGetMarchId (RiscVEdk2SbiLib.c lines 184-192):
unconditional assignment of `ret.value`, VOID. -/
def SbiGetMarchId (rt : SbiRuntime) (MarchId : Int) : Int :=
  let r := SbiCall0 rt SBI_EXT_BASE SBI_EXT_BASE_GET_MARCHID
  r.1.value

/-- Translation of SbiGetMimpId (RiscVEdk2SbiLib.c lines 201-209):
unconditional assignment of `ret.value`, VOID. -/
def SbiGetMimpId (rt : SbiRuntime) (MimpId : Int) : Int :=
  let r := SbiCall0 rt SBI_EXT_BASE SBI_EXT_BASE_GET_MIMPID
  r.1.value

/-- Translation of SbiHartStart (RiscVEdk2SbiLib.c lines 238-252): a
three-argument HSM call whose translated status is returned.  The second
component records the issued register file. -/
def SbiHartStart (rt : SbiRuntime) (HartId StartAddr Priv : Nat) :
    TransResult × CallDescriptor :=
  let r := SbiCall3 rt SBI_EXT_HSM SBI_EXT_HSM_HART_START HartId StartAddr Priv
  (TranslateError r.1.error, r.2)

/-- Translation of SbiHartStop (RiscVEdk2SbiLib.c lines 263-270). -/
def SbiHartStop (rt : SbiRuntime) : TransResult × CallDescriptor :=
  let r := SbiCall0 rt SBI_EXT_HSM SBI_EXT_HSM_HART_STOP
  (TranslateError r.1.error, r.2)

/-- Translation of SbiHartGetStatus (RiscVEdk2SbiLib.c lines 289-303): the
out parameter is written only when `ret.error` is zero, and the translated
status is returned.  The second component is the out parameter's final
contents. -/
def SbiHartGetStatus (rt : SbiRuntime) (HartId : Nat) (HartStatus : Int) :
    TransResult × Int :=
  let r := SbiCall1 rt SBI_EXT_HSM SBI_EXT_HSM_HART_GET_STATUS HartId
  (TranslateError r.1.error, if r.1.error = 0 then r.1.value else HartStatus)

/-- Translation of SbiSetTimer (RiscVEdk2SbiLib.c lines 313-320): the
function is VOID and the `sbiret` of the call is discarded, so the only
observable is the register file the trap was issued with. -/
def SbiSetTimer (rt : SbiRuntime) (StimeValue : Nat) : CallDescriptor :=
  (SbiCall1 rt SBI_EXT_TIME SBI_EXT_TIME_SET_TIMER StimeValue).2

/-- Translation of SbiSendIpi (RiscVEdk2SbiLib.c lines 322-334).  The C
passes the HartMask pointer itself, cast to UINTN, as the first argument;
HartMask here is that machine word. -/
def SbiSendIpi (rt : SbiRuntime) (HartMask HartMaskBase : Nat) :
    TransResult × CallDescriptor :=
  let r := SbiCall2 rt SBI_EXT_IPI SBI_EXT_IPI_SEND_IPI HartMask HartMaskBase
  (TranslateError r.1.error, r.2)

/-- Translation of SbiRemoteFenceI (RiscVEdk2SbiLib.c lines 349-361). -/
def SbiRemoteFenceI (rt : SbiRuntime) (HartMask HartMaskBase : Nat) :
    TransResult × CallDescriptor :=
  let r := SbiCall2 rt SBI_EXT_RFENCE SBI_EXT_RFENCE_REMOTE_FENCE_I
    HartMask HartMaskBase
  (TranslateError r.1.error, r.2)

/-- Translation of SbiRemoteSfenceVma (RiscVEdk2SbiLib.c lines 384-400). -/
def SbiRemoteSfenceVma (rt : SbiRuntime)
    (HartMask HartMaskBase StartAddr Size : Nat) : TransResult × CallDescriptor :=
  let r := SbiCall4 rt SBI_EXT_RFENCE SBI_EXT_RFENCE_REMOTE_SFENCE_VMA
    HartMask HartMaskBase StartAddr Size
  (TranslateError r.1.error, r.2)

/-- Translation of SbiRemoteSfenceVmaAsid (RiscVEdk2SbiLib.c lines 424-442). -/
def SbiRemoteSfenceVmaAsid (rt : SbiRuntime)
    (HartMask HartMaskBase StartAddr Size Asid : Nat) :
    TransResult × CallDescriptor :=
  let r := SbiCall5 rt SBI_EXT_RFENCE SBI_EXT_RFENCE_REMOTE_SFENCE_VMA_ASID
    HartMask HartMaskBase StartAddr Size Asid
  (TranslateError r.1.error, r.2)

/-- Translation of SbiRemoteHFenceGvmaVmid (RiscVEdk2SbiLib.c lines 470-488):
despite taking a Vmid argument, the source passes the function id constant
SBI_EXT_RFENCE_REMOTE_HFENCE_GVMA, the without-VMID variant. -/
def SbiRemoteHFenceGvmaVmid (rt : SbiRuntime)
    (HartMask HartMaskBase StartAddr Size Vmid : Nat) :
    TransResult × CallDescriptor :=
  let r := SbiCall5 rt SBI_EXT_RFENCE SBI_EXT_RFENCE_REMOTE_HFENCE_GVMA
    HartMask HartMaskBase StartAddr Size Vmid
  (TranslateError r.1.error, r.2)

/-- Translation of SbiRemoteHFenceGvma (RiscVEdk2SbiLib.c lines 515-531):
despite taking no Vmid argument, the source passes the function id constant
SBI_EXT_RFENCE_REMOTE_HFENCE_GVMA_VMID, the with-VMID variant. -/
def SbiRemoteHFenceGvma (rt : SbiRuntime)
    (HartMask HartMaskBase StartAddr Size : Nat) : TransResult × CallDescriptor :=
  let r := SbiCall4 rt SBI_EXT_RFENCE SBI_EXT_RFENCE_REMOTE_HFENCE_GVMA_VMID
    HartMask HartMaskBase StartAddr Size
  (TranslateError r.1.error, r.2)

/-- Translation of SbiRemoteHFenceVvmaAsid (RiscVEdk2SbiLib.c lines 559-577):
despite taking an Asid argument, the source passes the function id constant
SBI_EXT_RFENCE_REMOTE_HFENCE_VVMA, the without-ASID variant. -/
def SbiRemoteHFenceVvmaAsid (rt : SbiRuntime)
    (HartMask HartMaskBase StartAddr Size Asid : Nat) :
    TransResult × CallDescriptor :=
  let r := SbiCall5 rt SBI_EXT_RFENCE SBI_EXT_RFENCE_REMOTE_HFENCE_VVMA
    HartMask HartMaskBase StartAddr Size Asid
  (TranslateError r.1.error, r.2)

/-- Translation of SbiRemoteHFenceVvma (RiscVEdk2SbiLib.c lines 604-620):
despite taking no Asid argument, the source passes the function id constant
SBI_EXT_RFENCE_REMOTE_HFENCE_VVMA_ASID, the with-ASID variant. -/
def SbiRemoteHFenceVvma (rt : SbiRuntime)
    (HartMask HartMaskBase StartAddr Size : Nat) : TransResult × CallDescriptor :=
  let r := SbiCall4 rt SBI_EXT_RFENCE SBI_EXT_RFENCE_REMOTE_HFENCE_VVMA_ASID
    HartMask HartMaskBase StartAddr Size
  (TranslateError r.1.error, r.2)

/-- Outcome of SbiVendorCall: either the fatal assertion on the extension-id
precondition tripped (after which, in a DEBUG build, nothing further
happens), or the function returned a status, with the list of register files
it issued traps with (empty or a singleton). -/
inductive VendorOutcome : Type where
  | assertFailure : VendorOutcome
  | ret : TransResult → List CallDescriptor → VendorOutcome
  deriving DecidableEq, Repr

/-- Traps issued during an SbiVendorCall outcome; a tripped assertion issues
none. -/
def vendorTraps : VendorOutcome → List CallDescriptor
  | .assertFailure => []
  | .ret _ ds => ds

/-- Translation of SbiVendorCall (RiscVEdk2SbiLib.c lines 640-686):
`ASSERT (ExtensionId >= 0x09000000 && ExtensionId <= 0x09FFFFFF)`, then a
switch on NumArgs dispatching to SbiCall0..SbiCall6 with the first NumArgs
variadic arguments, translating the returned error; the default branch (more
than six arguments) returns EFI_INVALID_PARAMETER without any call.  The
variadic arguments are modelled as the list `args`; case k reads its first k
entries as VA_ARG would. -/
def SbiVendorCall (rt : SbiRuntime)
    (ExtensionId FunctionId NumArgs : Nat) (args : List Nat) : VendorOutcome :=
  if 0x09000000 ≤ ExtensionId ∧ ExtensionId ≤ 0x09FFFFFF then
    match NumArgs with
    | 0 =>
      let r := SbiCall0 rt ExtensionId FunctionId
      .ret (TranslateError r.1.error) [r.2]
    | 1 =>
      let r := SbiCall1 rt ExtensionId FunctionId (args.getD 0 0)
      .ret (TranslateError r.1.error) [r.2]
    | 2 =>
      let r := SbiCall2 rt ExtensionId FunctionId (args.getD 0 0) (args.getD 1 0)
      .ret (TranslateError r.1.error) [r.2]
    | 3 =>
      let r := SbiCall3 rt ExtensionId FunctionId (args.getD 0 0) (args.getD 1 0)
        (args.getD 2 0)
      .ret (TranslateError r.1.error) [r.2]
    | 4 =>
      let r := SbiCall4 rt ExtensionId FunctionId (args.getD 0 0) (args.getD 1 0)
        (args.getD 2 0) (args.getD 3 0)
      .ret (TranslateError r.1.error) [r.2]
    | 5 =>
      let r := SbiCall5 rt ExtensionId FunctionId (args.getD 0 0) (args.getD 1 0)
        (args.getD 2 0) (args.getD 3 0) (args.getD 4 0)
      .ret (TranslateError r.1.error) [r.2]
    | 6 =>
      let r := SbiCall6 rt ExtensionId FunctionId (args.getD 0 0) (args.getD 1 0)
        (args.getD 2 0) (args.getD 3 0) (args.getD 4 0) (args.getD 5 0)
      .ret (TranslateError r.1.error) [r.2]
    | _ => .ret ⟨false, .EFI_INVALID_PARAMETER⟩ []
  else .assertFailure

/-- Translation of SbiGetMscratch (RiscVEdk2SbiLib.c lines 701-714): issue
the firmware-extension mscratch call, write the out parameter (a scratch
pointer, modelled as a machine word) only when `ret.error` is zero, and
return EFI_SUCCESS unconditionally. -/
def SbiGetMscratch (rt : SbiRuntime) (ScratchSpace : Int) : EFI_STATUS × Int :=
  let r := SbiCall0 rt SBI_EDK2_FW_EXT SBI_EXT_FW_MSCRATCH_FUNC
  (.EFI_SUCCESS, if r.1.error = 0 then r.1.value else ScratchSpace)

/-- Translation of SbiGetMscratchHartid (RiscVEdk2SbiLib.c lines 723-739):
like SbiGetMscratch but for a given hart id, passed as the call's first
argument. -/
def SbiGetMscratchHartid (rt : SbiRuntime) (HartId : Nat) (ScratchSpace : Int) :
    EFI_STATUS × Int :=
  let r := SbiCall1 rt SBI_EDK2_FW_EXT SBI_EXT_FW_MSCRATCH_HARTID_FUNC HartId
  (.EFI_SUCCESS, if r.1.error = 0 then r.1.value else ScratchSpace)

/-- Translation of SbiGetFirmwareContext (RiscVEdk2SbiLib.c lines 747-764):
issue the mscratch call; on success follow `sbi_platform_ptr` from the
returned scratch pointer and read the platform's `firmware_context` field
into the out parameter; on failure leave the out parameter untouched; return
EFI_SUCCESS unconditionally.  The platform structures live on the other side
of the privilege boundary, so `sbi_platform_ptr` is modelled as the map
`platformOf` from scratch pointers to platform pointers, and the
`firmware_context` fields as the map `fwctxOf` from platform pointers to the
field contents. -/
def SbiGetFirmwareContext (rt : SbiRuntime) (platformOf : Int → Int)
    (fwctxOf : Int → Int) (FirmwareContext : Int) : EFI_STATUS × Int :=
  let r := SbiCall0 rt SBI_EDK2_FW_EXT SBI_EXT_FW_MSCRATCH_FUNC
  (.EFI_SUCCESS,
    if r.1.error = 0 then fwctxOf (platformOf r.1.value) else FirmwareContext)

/-- Translation of SbiSetFirmwareContext (RiscVEdk2SbiLib.c lines 772-789):
issue the mscratch call; on success overwrite the platform's
`firmware_context` field with the given value; on failure modify nothing;
return EFI_SUCCESS unconditionally.  The second component is the final state
of the `firmware_context` fields. -/
def SbiSetFirmwareContext (rt : SbiRuntime) (platformOf : Int → Int)
    (fwctxOf : Int → Int) (FirmwareContext : Int) : EFI_STATUS × (Int → Int) :=
  let r := SbiCall0 rt SBI_EDK2_FW_EXT SBI_EXT_FW_MSCRATCH_FUNC
  (.EFI_SUCCESS,
    if r.1.error = 0 then
      Function.update fwctxOf (platformOf r.1.value) FirmwareContext
    else fwctxOf)

/-- Dispatch over the SbiCall0..SbiCall6 macro family by argument count:
invoking the n-ary entry point on n arguments; more than six arguments has
no entry point. -/
def sbiCallDispatch (rt : SbiRuntime) (ext_id func_id : Nat) :
    List Nat → Option (Sbiret × CallDescriptor)
  | [] => some (SbiCall0 rt ext_id func_id)
  | [b0] => some (SbiCall1 rt ext_id func_id b0)
  | [b0, b1] => some (SbiCall2 rt ext_id func_id b0 b1)
  | [b0, b1, b2] => some (SbiCall3 rt ext_id func_id b0 b1 b2)
  | [b0, b1, b2, b3] => some (SbiCall4 rt ext_id func_id b0 b1 b2 b3)
  | [b0, b1, b2, b3, b4] => some (SbiCall5 rt ext_id func_id b0 b1 b2 b3 b4)
  | [b0, b1, b2, b3, b4, b5] => some (SbiCall6 rt ext_id func_id b0 b1 b2 b3 b4 b5)
  | _ => none

/-- A degenerate runtime answering every call with (0, 0); used to evaluate
the wrappers at concrete inputs. -/
def rtZero : SbiRuntime := fun _ => ⟨0, 0⟩

/-- A runtime failing every call with SBI_ERR_FAILED and leaving 99 in the
value register; used to exercise the failure paths at concrete inputs. -/
def rtFail99 : SbiRuntime := fun _ => ⟨-1, 99⟩

/-- A runtime that supports exactly the timer extension: a well-formed probe
call (base extension, probe function, probed id 0x54494D45 in a0) answers
(0, 1); every other call answers (0, 0). -/
def rtProbeTime : SbiRuntime := fun d =>
  if d.a7 = SBI_EXT_BASE ∧ d.a6 = SBI_EXT_BASE_PROBE_EXT ∧ d.a0 = 0x54494D45
  then ⟨0, 1⟩ else ⟨0, 0⟩

/-- The fixed register file of a zero-argument base-extension call. -/
def baseCallDesc (func_id : Nat) : CallDescriptor :=
  ⟨0, 0, 0, 0, 0, 0, func_id, SBI_EXT_BASE⟩

/-- The register file of the HSM hart-get-status call for a given hart. -/
def hsmStatusDesc (HartId : Nat) : CallDescriptor :=
  ⟨HartId, 0, 0, 0, 0, 0, SBI_EXT_HSM_HART_GET_STATUS, SBI_EXT_HSM⟩

/-- The fixed register file of the firmware-extension mscratch call. -/
def fwMscratchDesc : CallDescriptor :=
  ⟨0, 0, 0, 0, 0, 0, SBI_EXT_FW_MSCRATCH_FUNC, SBI_EDK2_FW_EXT⟩

/-- The register file of the firmware-extension mscratch-by-hartid call. -/
def fwMscratchHartidDesc (HartId : Nat) : CallDescriptor :=
  ⟨HartId, 0, 0, 0, 0, 0, SBI_EXT_FW_MSCRATCH_HARTID_FUNC, SBI_EDK2_FW_EXT⟩

/-- The identity map on platform pointers; a concrete instance of the
`platformOf` parameter for witnesses. -/
def platformId : Int → Int := fun x => x

/-- A concrete all-zero state of the `firmware_context` fields for
witnesses. -/
def fwctxZero : Int → Int := fun _ => 0

/-- Claim C1: for every status input in {0, -1, -2, -3, -4, -5, -6},
TranslateError returns the matching structured error (and trips no assert):
0 EFI_SUCCESS, -1 EFI_DEVICE_ERROR, -2 EFI_UNSUPPORTED, -3
EFI_INVALID_PARAMETER, -4 EFI_ACCESS_DENIED, -5 EFI_LOAD_ERROR, -6
EFI_ALREADY_STARTED. -/
theorem C1_translate_error_defined_codes :
    TranslateError 0 = ⟨false, .EFI_SUCCESS⟩ ∧
    TranslateError (-1) = ⟨false, .EFI_DEVICE_ERROR⟩ ∧
    TranslateError (-2) = ⟨false, .EFI_UNSUPPORTED⟩ ∧
    TranslateError (-3) = ⟨false, .EFI_INVALID_PARAMETER⟩ ∧
    TranslateError (-4) = ⟨false, .EFI_ACCESS_DENIED⟩ ∧
    TranslateError (-5) = ⟨false, .EFI_LOAD_ERROR⟩ ∧
    TranslateError (-6) = ⟨false, .EFI_ALREADY_STARTED⟩ := by
  decide

/-- Claim C3: for every status value outside the seven defined codes the
translator takes the assertion-failure path (the default branch's
`ASSERT (FALSE)` trips, which in a DEBUG build is fatal), so the value is
not silently coerced to a known structured error. -/
theorem C3_translate_error_unknown_is_fatal (s : Int)
    (h0 : s ≠ 0) (h1 : s ≠ -1) (h2 : s ≠ -2) (h3 : s ≠ -3)
    (h4 : s ≠ -4) (h5 : s ≠ -5) (h6 : s ≠ -6) :
    (TranslateError s).assertFailed = true := by
  simp [TranslateError, SBI_SUCCESS, SBI_ERR_FAILED, SBI_ERR_NOT_SUPPORTED,
    SBI_ERR_INVALID_PARAM, SBI_ERR_DENIED, SBI_ERR_INVALID_ADDRESS,
    SBI_ERR_ALREADY_AVAILABLE, h0, h1, h2, h3, h4, h5, h6]

/-- Witness for C3 at the concrete out-of-contract status -7. -/
theorem C3_witness :
    ((-7 : Int) ≠ 0 ∧ (-7 : Int) ≠ -1 ∧ (-7 : Int) ≠ -2 ∧ (-7 : Int) ≠ -3 ∧
      (-7 : Int) ≠ -4 ∧ (-7 : Int) ≠ -5 ∧ (-7 : Int) ≠ -6) ∧
    (TranslateError (-7)).assertFailed = true :=
  ⟨by decide,
    C3_translate_error_unknown_is_fatal (-7) (by decide) (by decide) (by decide)
      (by decide) (by decide) (by decide) (by decide)⟩

/-- Claim C2 fails on the code: under rtProbeTime, a runtime that answers a
correctly encoded probe of the timer extension 0x54494D45 with the nonzero
value 1, SbiProbeExtension (0x54494D45) still returns 0, because the wrapper
issues SbiCall0 and never places the probed ExtensionId into any argument
register (a0-a5 are all zero); its result is independent of ExtensionId. -/
theorem C2_probe_never_passes_extension_id :
    rtProbeTime ⟨0x54494D45, 0, 0, 0, 0, 0, SBI_EXT_BASE_PROBE_EXT, SBI_EXT_BASE⟩ = ⟨0, 1⟩ ∧
    (SbiProbeExtension rtProbeTime 0x54494D45 7).1 = 0 ∧
    (SbiProbeExtension rtProbeTime 0x54494D45 7).2 =
      ⟨0, 0, 0, 0, 0, 0, SBI_EXT_BASE_PROBE_EXT, SBI_EXT_BASE⟩ ∧
    SbiProbeExtension rtProbeTime 0x54494D45 7 = SbiProbeExtension rtProbeTime 0 7 := by
  decide

/-- Claim C4 fails on the code: SbiGetImplId overwrites its out parameter
with the trap's value register even when the call fails with SBI_ERR_FAILED
(and, being VOID, propagates no error). -/
theorem C4_counterexample :
    (rtFail99 (baseCallDesc SBI_EXT_BASE_GET_IMP_ID)).error = SBI_ERR_FAILED ∧
    SbiGetImplId rtFail99 7 = 99 ∧ (99 : Int) ≠ 7 := by
  decide

/-- Claim C4 as amended: among the listed wrappers only SbiGetSpecVersion and
SbiHartGetStatus write their out parameter only on success, and only
SbiHartGetStatus returns the translated error (SbiGetSpecVersion is VOID);
SbiGetImplId, SbiGetImplVersion, SbiProbeExtension, SbiGetMvendorId,
SbiGetMarchId and SbiGetMimpId copy the trap's value register to the out
parameter unconditionally and return nothing. -/
theorem C4_amended_output_discipline (rt : SbiRuntime) (old x : Int) (HartId : Nat) :
    SbiGetSpecVersion rt old =
      (if (rt (baseCallDesc SBI_EXT_BASE_GET_SPEC_VERSION)).error = 0
       then (rt (baseCallDesc SBI_EXT_BASE_GET_SPEC_VERSION)).value else old) ∧
    SbiGetImplId rt old = (rt (baseCallDesc SBI_EXT_BASE_GET_IMP_ID)).value ∧
    SbiGetImplVersion rt old = (rt (baseCallDesc SBI_EXT_BASE_GET_IMP_VERSION)).value ∧
    (SbiProbeExtension rt x old).1 = (rt (baseCallDesc SBI_EXT_BASE_PROBE_EXT)).value ∧
    SbiGetMvendorId rt old = (rt (baseCallDesc SBI_EXT_BASE_GET_MVENDORID)).value ∧
    SbiGetMarchId rt old = (rt (baseCallDesc SBI_EXT_BASE_GET_MARCHID)).value ∧
    SbiGetMimpId rt old = (rt (baseCallDesc SBI_EXT_BASE_GET_MIMPID)).value ∧
    (SbiHartGetStatus rt HartId old).1 =
      TranslateError (rt (hsmStatusDesc HartId)).error ∧
    (SbiHartGetStatus rt HartId old).2 =
      (if (rt (hsmStatusDesc HartId)).error = 0
       then (rt (hsmStatusDesc HartId)).value else old) :=
  ⟨rfl, rfl, rfl, rfl, rfl, rfl, rfl, rfl, rfl⟩

/-- Claim C5 fails on the code: the Vmid-taking guest-physical fence wrapper
issues the function id of the without-VMID variant and vice versa, and the
Asid-taking virtual fence wrapper issues the function id of the without-ASID
variant and vice versa. -/
theorem C5_hfence_function_ids_swapped :
    (SbiRemoteHFenceGvmaVmid rtZero 1 0 0 0 5).2.a6 = SBI_EXT_RFENCE_REMOTE_HFENCE_GVMA ∧
    (SbiRemoteHFenceGvma rtZero 1 0 0 0).2.a6 = SBI_EXT_RFENCE_REMOTE_HFENCE_GVMA_VMID ∧
    (SbiRemoteHFenceVvmaAsid rtZero 1 0 0 0 5).2.a6 = SBI_EXT_RFENCE_REMOTE_HFENCE_VVMA ∧
    (SbiRemoteHFenceVvma rtZero 1 0 0 0).2.a6 = SBI_EXT_RFENCE_REMOTE_HFENCE_VVMA_ASID ∧
    SBI_EXT_RFENCE_REMOTE_HFENCE_GVMA ≠ SBI_EXT_RFENCE_REMOTE_HFENCE_GVMA_VMID ∧
    SBI_EXT_RFENCE_REMOTE_HFENCE_VVMA ≠ SBI_EXT_RFENCE_REMOTE_HFENCE_VVMA_ASID := by
  decide

/-- Claim C6: with the vendor extension id inside its reserved range (so the
entry assertion passes), any NumArgs greater than 6 makes SbiVendorCall
return EFI_INVALID_PARAMETER, and no trap is issued. -/
theorem C6_vendor_call_too_many_args (rt : SbiRuntime)
    (ExtensionId FunctionId NumArgs : Nat) (args : List Nat)
    (hlo : 0x09000000 ≤ ExtensionId) (hhi : ExtensionId ≤ 0x09FFFFFF)
    (hn : 6 < NumArgs) :
    SbiVendorCall rt ExtensionId FunctionId NumArgs args =
      .ret ⟨false, .EFI_INVALID_PARAMETER⟩ [] ∧
    vendorTraps (SbiVendorCall rt ExtensionId FunctionId NumArgs args) = [] := by
  obtain ⟨m, rfl⟩ : ∃ m, NumArgs = m + 7 := ⟨NumArgs - 7, by omega⟩
  have h1 : SbiVendorCall rt ExtensionId FunctionId (m + 7) args =
      .ret ⟨false, .EFI_INVALID_PARAMETER⟩ [] := by
    unfold SbiVendorCall
    rw [if_pos ⟨hlo, hhi⟩]
    rfl
  exact ⟨h1, by rw [h1]; rfl⟩

/-- Witness for C6: an in-range vendor extension id with seven arguments. -/
theorem C6_witness :
    ((0x09000000 : Nat) ≤ 0x09000000 ∧ (0x09000000 : Nat) ≤ 0x09FFFFFF ∧ 6 < 7) ∧
    (SbiVendorCall rtZero 0x09000000 0 7 [] =
      .ret ⟨false, .EFI_INVALID_PARAMETER⟩ [] ∧
     vendorTraps (SbiVendorCall rtZero 0x09000000 0 7 []) = []) :=
  ⟨by decide,
    C6_vendor_call_too_many_args rtZero 0x09000000 0 7 [] (by decide) (by decide)
      (by decide)⟩

/-- Claim C7: for every ExtensionId outside the vendor range
[0x09000000, 0x09FFFFFF], SbiVendorCall takes the fatal assertion-failure
path and issues no trap. -/
theorem C7_vendor_call_extension_out_of_range (rt : SbiRuntime)
    (ExtensionId FunctionId NumArgs : Nat) (args : List Nat)
    (h : ¬(0x09000000 ≤ ExtensionId ∧ ExtensionId ≤ 0x09FFFFFF)) :
    SbiVendorCall rt ExtensionId FunctionId NumArgs args = .assertFailure ∧
    vendorTraps (SbiVendorCall rt ExtensionId FunctionId NumArgs args) = [] := by
  have h1 : SbiVendorCall rt ExtensionId FunctionId NumArgs args = .assertFailure := by
    unfold SbiVendorCall
    rw [if_neg h]
  exact ⟨h1, by rw [h1]; rfl⟩

/-- Witness for C7 at the out-of-range extension id 0x10. -/
theorem C7_witness :
    (¬((0x09000000 : Nat) ≤ 0x10 ∧ (0x10 : Nat) ≤ 0x09FFFFFF)) ∧
    (SbiVendorCall rtZero 0x10 0 0 [] = .assertFailure ∧
     vendorTraps (SbiVendorCall rtZero 0x10 0 0 []) = []) :=
  ⟨by decide,
    C7_vendor_call_extension_out_of_range rtZero 0x10 0 0 [] (by decide)⟩

/-- Claim C8: SbiGetMscratch, SbiGetMscratchHartid, SbiGetFirmwareContext and
SbiSetFirmwareContext return EFI_SUCCESS for every outcome of the underlying
firmware-extension call; when that call fails, the out parameter keeps its
previous contents (and no firmware_context field is modified) while success
is still reported. -/
theorem C8_firmware_context_accessors (rt : SbiRuntime)
    (platformOf fwctxOf : Int → Int) (old ctx v : Int) (HartId : Nat) :
    (SbiGetMscratch rt old).1 = .EFI_SUCCESS ∧
    (SbiGetMscratchHartid rt HartId old).1 = .EFI_SUCCESS ∧
    (SbiGetFirmwareContext rt platformOf fwctxOf ctx).1 = .EFI_SUCCESS ∧
    (SbiSetFirmwareContext rt platformOf fwctxOf v).1 = .EFI_SUCCESS ∧
    ((rt fwMscratchDesc).error ≠ 0 →
      (SbiGetMscratch rt old).2 = old ∧
      (SbiGetFirmwareContext rt platformOf fwctxOf ctx).2 = ctx ∧
      (SbiSetFirmwareContext rt platformOf fwctxOf v).2 = fwctxOf) ∧
    ((rt (fwMscratchHartidDesc HartId)).error ≠ 0 →
      (SbiGetMscratchHartid rt HartId old).2 = old) := by
  refine ⟨rfl, rfl, rfl, rfl, fun h => ⟨?_, ?_, ?_⟩, fun h => ?_⟩
  · show (if (rt fwMscratchDesc).error = 0
        then (rt fwMscratchDesc).value else old) = old
    exact if_neg h
  · show (if (rt fwMscratchDesc).error = 0
        then fwctxOf (platformOf (rt fwMscratchDesc).value) else ctx) = ctx
    exact if_neg h
  · show (if (rt fwMscratchDesc).error = 0
        then Function.update fwctxOf (platformOf (rt fwMscratchDesc).value) v
        else fwctxOf) = fwctxOf
    exact if_neg h
  · show (if (rt (fwMscratchHartidDesc HartId)).error = 0
        then (rt (fwMscratchHartidDesc HartId)).value else old) = old
    exact if_neg h

/-- Witness for C8 under the failing runtime rtFail99: success is still
reported while every output keeps its previous contents. -/
theorem C8_witness :
    ((rtFail99 fwMscratchDesc).error ≠ 0 ∧
      (rtFail99 (fwMscratchHartidDesc 2)).error ≠ 0) ∧
    ((SbiGetMscratch rtFail99 5).1 = .EFI_SUCCESS ∧
     (SbiGetMscratch rtFail99 5).2 = 5 ∧
     (SbiGetMscratchHartid rtFail99 2 5).2 = 5 ∧
     (SbiGetFirmwareContext rtFail99 platformId fwctxZero 8).2 = 8 ∧
     (SbiSetFirmwareContext rtFail99 platformId fwctxZero 9).2 = fwctxZero) := by
  have h := C8_firmware_context_accessors rtFail99 platformId fwctxZero 5 8 9 2
  exact ⟨⟨by decide, by decide⟩,
    h.1,
    (h.2.2.2.2.1 (by decide)).1,
    h.2.2.2.2.2 (by decide),
    (h.2.2.2.2.1 (by decide)).2.1,
    (h.2.2.2.2.1 (by decide)).2.2⟩

/-- Claim C9 fails on the code: SbiSetTimer is VOID and discards the trap's
sbiret, so its caller receives the same (empty) result whether the
timer-arming call succeeded (rtZero answers status 0) or failed (rtFail99
answers status -1): no success/failure indication is reported. -/
theorem C9_counterexample :
    rtZero (SbiSetTimer rtZero 10) = ⟨0, 0⟩ ∧
    rtFail99 (SbiSetTimer rtFail99 10) = ⟨-1, 99⟩ ∧
    SbiSetTimer rtZero 10 = SbiSetTimer rtFail99 10 := by
  decide

/-- Claim C9 as amended: SbiSetTimer issues the set-timer call with
StimeValue in the first argument register and returns nothing; the trap's
status is discarded, so the wrapper's result is the same for every runtime
answer. -/
theorem C9_amended_settimer_reports_nothing (rt : SbiRuntime) (StimeValue : Nat) :
    SbiSetTimer rt StimeValue =
      ⟨StimeValue, 0, 0, 0, 0, 0, SBI_EXT_TIME_SET_TIMER, SBI_EXT_TIME⟩ :=
  rfl

/-- Claim C10: invoking the n-ary call-encoder entry point (0 <= n <= 6) on n
arguments places them in the first n of the six argument registers, fills
every unused trailing register with zero, places the function id and
extension id in their dedicated registers a6 and a7, and returns exactly the
(status, value) pair the runtime answers for that register file. -/
theorem C10_call_encoder (rt : SbiRuntime) (ext_id func_id : Nat)
    (args : List Nat) (h : args.length ≤ 6) :
    ∃ p, sbiCallDispatch rt ext_id func_id args = some p ∧
      p.2 = ⟨args.getD 0 0, args.getD 1 0, args.getD 2 0, args.getD 3 0,
             args.getD 4 0, args.getD 5 0, func_id, ext_id⟩ ∧
      p.1 = rt p.2 := by
  match args with
  | [] => exact ⟨_, rfl, rfl, rfl⟩
  | [b0] => exact ⟨_, rfl, rfl, rfl⟩
  | [b0, b1] => exact ⟨_, rfl, rfl, rfl⟩
  | [b0, b1, b2] => exact ⟨_, rfl, rfl, rfl⟩
  | [b0, b1, b2, b3] => exact ⟨_, rfl, rfl, rfl⟩
  | [b0, b1, b2, b3, b4] => exact ⟨_, rfl, rfl, rfl⟩
  | [b0, b1, b2, b3, b4, b5] => exact ⟨_, rfl, rfl, rfl⟩
  | b0 :: b1 :: b2 :: b3 :: b4 :: b5 :: b6 :: rest => simp at h

/-- Witness for C10 on the three-argument invocation (7, 8, [1, 2, 3]). -/
theorem C10_witness :
    (([1, 2, 3] : List Nat).length ≤ 6) ∧
    (∃ p, sbiCallDispatch rtZero 7 8 [1, 2, 3] = some p ∧
      p.2 = ⟨([1, 2, 3] : List Nat).getD 0 0, ([1, 2, 3] : List Nat).getD 1 0,
             ([1, 2, 3] : List Nat).getD 2 0, ([1, 2, 3] : List Nat).getD 3 0,
             ([1, 2, 3] : List Nat).getD 4 0, ([1, 2, 3] : List Nat).getD 5 0,
             8, 7⟩ ∧
      p.1 = rtZero p.2) :=
  ⟨by decide, C10_call_encoder rtZero 7 8 [1, 2, 3] (by decide)⟩
